import Mathlib

/-!
Verification of the Reservation and Lock Synchronization Engine of the
system-access-guardian repository, as a shallow embedding in Lean 4.

The embedding translates the SQL trigger pipeline (quota trigger, overlap
triggers, hierarchy validation triggers, CHECK constraints, exclusion
constraints, the cascade trigger), the reconciliation function
process_active_bookings, the cancellation RPC functions, and the client-side
booking flow (BookingModal.validateBooking, handleConfirm quantization and the
bookSystem pre-checks) into executable Lean definitions, and proves theorems
about them.

Timestamps are modelled as natural numbers (milliseconds since an epoch).
Resource, user and reservation identifiers are natural numbers.
-/

namespace Guardian

/-- Status column of the booking tables: CHECK (status IN (active, cancelled, completed)). -/
inductive BookingStatus where
  | active
  | cancelled
  | completed
deriving DecidableEq, Repr

/-- Row of the system_bookings table (top-level resource reservations). -/
structure SystemBooking where
  id : Nat
  system_id : Nat
  user_id : Nat
  booking_start : Nat
  booking_end : Nat
  status : BookingStatus
deriving DecidableEq, Repr

/-- Row of the subsystem_bookings table (sub-resource reservations). -/
structure SubsystemBooking where
  id : Nat
  subsystem_id : Nat
  system_id : Nat
  user_id : Nat
  booking_start : Nat
  booking_end : Nat
  status : BookingStatus
deriving DecidableEq, Repr

/-- Row of the subsystems table: a sub-resource and its parent system. -/
structure Subsystem where
  id : Nat
  system_id : Nat
deriving DecidableEq, Repr

/-- The reservation ledger: the three tables the booking logic reads and writes. -/
structure DB where
  subsystems : List Subsystem
  system_bookings : List SystemBooking
  subsystem_bookings : List SubsystemBooking
deriving DecidableEq, Repr

/-- One calendar day in milliseconds (the unit used by the date-fns client code). -/
def dayMs : Nat := 86400000

/-- The three-clause overlap test that appears verbatim in every SQL conflict
check of the repository: existing row interval is [bs, be), requested interval
is [s, e); the row conflicts when
(bs <= s AND be > s) OR (bs < e AND be >= e) OR (bs >= s AND be <= e). -/
def sql_overlap (bs be s e : Nat) : Bool :=
  (decide (bs ≤ s) && decide (s < be)) ||
  (decide (bs < e) && decide (e ≤ be)) ||
  (decide (s ≤ bs) && decide (be ≤ e))

/-- The closed-bounds conflict test of the client bookSystem function
(hasConflict = startDate <= bookingEnd AND endDate >= bookingStart), with the
requested interval [s, e) and the existing interval [bs, be). -/
def client_overlap (s e bs be : Nat) : Bool :=
  decide (s ≤ be) && decide (bs ≤ e)

/-- The conflict filter of BookingModal.validateBooking over existing bookings:
(start >= bookingStart AND start < bookingEnd) OR
(end > bookingStart AND end <= bookingEnd) OR
(start <= bookingStart AND end >= bookingEnd). -/
def modal_conflict (s e bs be : Nat) : Bool :=
  (decide (bs ≤ s) && decide (s < be)) ||
  (decide (bs < e) && decide (e ≤ be)) ||
  (decide (s ≤ bs) && decide (be ≤ e))

/-- SQL function check_booking_conflicts: is there an active system booking on
the given system, other than the excluded row, that overlaps [s, e)? -/
def check_booking_conflicts (db : DB) (sysId s e : Nat) (excl : Option Nat) : Bool :=
  db.system_bookings.any fun b =>
    b.system_id == sysId && b.status == .active &&
    (match excl with
     | none => true
     | some x => b.id != x) &&
    sql_overlap b.booking_start b.booking_end s e

/-- SQL function check_subsystem_booking_conflicts: the same test over the
subsystem_bookings table. -/
def check_subsystem_booking_conflicts (db : DB) (subId s e : Nat) (excl : Option Nat) : Bool :=
  db.subsystem_bookings.any fun b =>
    b.subsystem_id == subId && b.status == .active &&
    (match excl with
     | none => true
     | some x => b.id != x) &&
    sql_overlap b.booking_start b.booking_end s e

/-- SQL function is_parent_system_booked: look up the parent system of the
subsystem and test whether it has any active booking overlapping [s, e).
When the subsystem row is missing, the SELECT INTO leaves the parent id NULL
and the EXISTS finds nothing. -/
def is_parent_system_booked (db : DB) (subId s e : Nat) : Bool :=
  match db.subsystems.find? (fun ss => ss.id == subId) with
  | none => false
  | some ss =>
      db.system_bookings.any fun b =>
        b.system_id == ss.system_id && b.status == .active &&
        sql_overlap b.booking_start b.booking_end s e

/-- SQL function are_all_subsystems_free: no active subsystem booking, joined
to a subsystem of the given system, overlaps [s, e). -/
def are_all_subsystems_free (db : DB) (sysId s e : Nat) : Bool :=
  ! db.subsystem_bookings.any fun sb =>
      (db.subsystems.any fun ss => ss.id == sb.subsystem_id && ss.system_id == sysId) &&
      sb.status == .active &&
      sql_overlap sb.booking_start sb.booking_end s e

/-- Quota count of check_user_booking_limit and get_user_remaining_bookings:
active bookings of the user with booking_end > NOW(), over the system and
subsystem tables combined. -/
def count_active_future (db : DB) (uid now : Nat) : Nat :=
  (db.system_bookings.filter fun b =>
      b.user_id == uid && b.status == .active && decide (now < b.booking_end)).length +
  (db.subsystem_bookings.filter fun b =>
      b.user_id == uid && b.status == .active && decide (now < b.booking_end)).length

/-- SQL function get_user_remaining_bookings: GREATEST(0, 5 - active_count);
natural-number subtraction already clamps at zero. -/
def get_user_remaining_bookings (db : DB) (uid now : Nat) : Nat :=
  5 - count_active_future db uid now

/-- Admin-override UPDATE of the system-booking triggers (prevent_booking_overlap
and validate_system_booking): cancel every active system booking of the system,
other than the new row, whose interval overlaps the new interval. -/
def cancel_conflicting_system (db : DB) (sysId s e newId : Nat) : DB :=
  { db with
    system_bookings := db.system_bookings.map fun b =>
      if b.system_id == sysId && b.id != newId && b.status == .active &&
         sql_overlap b.booking_start b.booking_end s e
      then { b with status := .cancelled }
      else b }

/-- Admin-override UPDATE of the subsystem-booking triggers: cancel every
active booking of the subsystem, other than the new row, that overlaps. -/
def cancel_conflicting_subsystem (db : DB) (subId s e newId : Nat) : DB :=
  { db with
    subsystem_bookings := db.subsystem_bookings.map fun b =>
      if b.subsystem_id == subId && b.id != newId && b.status == .active &&
         sql_overlap b.booking_start b.booking_end s e
      then { b with status := .cancelled }
      else b }

/-- Admin-override UPDATE of validate_system_booking: cancel every active
booking on any subsystem of the system that overlaps the new interval. -/
def cancel_conflicting_subsystems_of_system (db : DB) (sysId s e : Nat) : DB :=
  { db with
    subsystem_bookings := db.subsystem_bookings.map fun sb =>
      if (db.subsystems.any fun ss => ss.id == sb.subsystem_id && ss.system_id == sysId) &&
         sb.status == .active &&
         sql_overlap sb.booking_start sb.booking_end s e
      then { sb with status := .cancelled }
      else sb }

/-- AFTER INSERT trigger handle_system_booking_cascade for non-admin callers:
cancel overlapping active subsystem bookings of the system that belong to a
different user. -/
def cascade_cancel_subsystems (db : DB) (sysId s e uid : Nat) : DB :=
  { db with
    subsystem_bookings := db.subsystem_bookings.map fun sb =>
      if (db.subsystems.any fun ss => ss.id == sb.subsystem_id && ss.system_id == sysId) &&
         sb.status == .active &&
         sb.user_id != uid &&
         sql_overlap sb.booking_start sb.booking_end s e
      then { sb with status := .cancelled }
      else sb }

/-- Range-overlap test of the gist exclusion constraint
no_overlapping_system_bookings (system_id equal and tstzrange overlap, over
active rows): two half-open ranges overlap when both are non-empty and each
starts before the other ends. -/
def exclusion_violation_system (db : DB) (nb : SystemBooking) : Bool :=
  db.system_bookings.any fun b =>
    b.id != nb.id && b.system_id == nb.system_id && b.status == .active && nb.status == .active &&
    decide (b.booking_start < b.booking_end) && decide (nb.booking_start < nb.booking_end) &&
    decide (b.booking_start < nb.booking_end) && decide (nb.booking_start < b.booking_end)

/-- Range-overlap test of the subsystem exclusion constraint. -/
def exclusion_violation_subsystem (db : DB) (nb : SubsystemBooking) : Bool :=
  db.subsystem_bookings.any fun b =>
    b.id != nb.id && b.subsystem_id == nb.subsystem_id && b.status == .active && nb.status == .active &&
    decide (b.booking_start < b.booking_end) && decide (nb.booking_start < nb.booking_end) &&
    decide (b.booking_start < nb.booking_end) && decide (nb.booking_start < b.booking_end)

/-- Errors raised by the booking pipeline. The RAISE EXCEPTION messages of the
SQL triggers and the client-side rejection messages are mapped onto the error
taxonomy used by the specification. -/
inductive BookingError where
  | InvalidInterval
  | QuotaExceeded
  | Conflict
  | ParentConflict
  | ChildConflict
deriving DecidableEq, Repr

/-- Ledger-level INSERT into system_bookings with the full trigger pipeline.
BEFORE INSERT triggers fire in name order: check_system_booking_limit (quota),
then prevent_system_booking_overlap, then validate_system_booking_trigger; the
CHECK constraints (booking_time_order, booking_duration_limit at 3 days per the
FIX_BOOKING_DURATION_CONSTRAINT migration) and the exclusion constraint are
enforced at the insert itself; the AFTER trigger handle_system_booking_cascade
runs last. Error-raising non-admin checks are written before the admin-only
cancellation steps, which is equivalent to the trigger bodies because each
UPDATE runs only in the admin branch. -/
def insert_system_booking (db : DB) (now : Nat) (nb : SystemBooking) (admin : Bool) :
    Except BookingError DB :=
  if 5 ≤ count_active_future db nb.user_id now then .error .QuotaExceeded
  else if !admin && check_booking_conflicts db nb.system_id nb.booking_start nb.booking_end (some nb.id) then
    .error .Conflict
  else
    let db1 := if admin then cancel_conflicting_system db nb.system_id nb.booking_start nb.booking_end nb.id else db
    if !admin && !are_all_subsystems_free db1 nb.system_id nb.booking_start nb.booking_end then
      .error .ChildConflict
    else
      let db2 :=
        if admin && !are_all_subsystems_free db1 nb.system_id nb.booking_start nb.booking_end then
          cancel_conflicting_subsystems_of_system db1 nb.system_id nb.booking_start nb.booking_end
        else db1
      if !admin && check_booking_conflicts db2 nb.system_id nb.booking_start nb.booking_end (some nb.id) then
        .error .Conflict
      else
        let db3 :=
          if admin && check_booking_conflicts db2 nb.system_id nb.booking_start nb.booking_end (some nb.id) then
            cancel_conflicting_system db2 nb.system_id nb.booking_start nb.booking_end nb.id
          else db2
        if nb.booking_end ≤ nb.booking_start then .error .InvalidInterval
        else if 3 * dayMs < nb.booking_end - nb.booking_start then .error .InvalidInterval
        else if exclusion_violation_system db3 nb then .error .Conflict
        else
          let db4 := { db3 with system_bookings := db3.system_bookings ++ [nb] }
          .ok (if nb.status == .active && !admin then
                 cascade_cancel_subsystems db4 nb.system_id nb.booking_start nb.booking_end nb.user_id
               else db4)

/-- Ledger-level INSERT into subsystem_bookings with its trigger pipeline:
check_subsystem_booking_limit, then prevent_subsystem_booking_overlap, then
validate_subsystem_booking_trigger (parent check first, then same-subsystem
conflicts), then the CHECK and exclusion constraints. The admin path never
cancels the parent system booking: validate_subsystem_booking only skips the
parent-conflict exception for admins. -/
def insert_subsystem_booking (db : DB) (now : Nat) (nb : SubsystemBooking) (admin : Bool) :
    Except BookingError DB :=
  if 5 ≤ count_active_future db nb.user_id now then .error .QuotaExceeded
  else if !admin && check_subsystem_booking_conflicts db nb.subsystem_id nb.booking_start nb.booking_end (some nb.id) then
    .error .Conflict
  else
    let db1 := if admin then cancel_conflicting_subsystem db nb.subsystem_id nb.booking_start nb.booking_end nb.id else db
    if !admin && is_parent_system_booked db1 nb.subsystem_id nb.booking_start nb.booking_end then
      .error .ParentConflict
    else if !admin && check_subsystem_booking_conflicts db1 nb.subsystem_id nb.booking_start nb.booking_end (some nb.id) then
      .error .Conflict
    else
      let db2 :=
        if admin && check_subsystem_booking_conflicts db1 nb.subsystem_id nb.booking_start nb.booking_end (some nb.id) then
          cancel_conflicting_subsystem db1 nb.subsystem_id nb.booking_start nb.booking_end nb.id
        else db1
      if nb.booking_end ≤ nb.booking_start then .error .InvalidInterval
      else if 3 * dayMs < nb.booking_end - nb.booking_start then .error .InvalidInterval
      else if exclusion_violation_subsystem db2 nb then .error .Conflict
      else .ok { db2 with subsystem_bookings := db2.subsystem_bookings ++ [nb] }

/-- startOfDay of date-fns on a millisecond timestamp: truncate to the day. -/
def startOfDay (t : Nat) : Nat := t / dayMs * dayMs

/-- endOfDay of date-fns on a millisecond timestamp: last millisecond of the day. -/
def endOfDay (t : Nat) : Nat := t / dayMs * dayMs + (dayMs - 1)

/-- Validation of BookingModal.validateBooking, run on the quantized interval
[s, e] = [startOfDay(chosen start), endOfDay(chosen end)], in source order:
start in the past, end before start, more than 2 whole days apart, conflict
with the denormalized current booking passed by the parent (closed-bounds
comparison), conflict with the existing bookings of the resource. The three
interval rejections and the past-start rejection are all local interval
validation and map to InvalidInterval; for admins the two conflict cases only
produce a warning and do not reject. Returns the rejection, if any. -/
def validateBooking (db : DB) (now sysId : Nat) (admin : Bool) (cur : Option (Nat × Nat))
    (s e : Nat) : Option BookingError :=
  if s < startOfDay now then some .InvalidInterval
  else if e < s then some .InvalidInterval
  else if 2 < e / dayMs - s / dayMs then some .InvalidInterval
  else if !admin &&
          (match cur with
           | some (cs, ce) => decide (s ≤ ce) && decide (cs ≤ e)
           | none => false) then some .Conflict
  else if !admin &&
          (db.system_bookings.any fun b =>
            b.system_id == sysId && b.status == .active &&
            modal_conflict s e b.booking_start b.booking_end) then some .Conflict
  else none

/-- The end-to-end client create flow for a top-level system: handleConfirm
quantizes the chosen dates with startOfDay and endOfDay and runs
validateBooking; bookSystem then checks get_user_remaining_bookings, runs its
own closed-bounds conflict pre-check over the active bookings of the system
(skipping the bookings of the requester), and inserts the new active booking
row through the ledger trigger pipeline. The UI-only parts (table-existence
probes, toasts, the denormalized lock-field update modelled separately by
lockSystem) carry no decision logic for the committed reservation. -/
def createReservation (db : DB) (now uid sysId : Nat) (admin : Bool)
    (cur : Option (Nat × Nat)) (newId d1 d2 : Nat) : Except BookingError DB :=
  let s := startOfDay d1
  let e := endOfDay d2
  match validateBooking db now sysId admin cur s e with
  | some err => .error err
  | none =>
    if get_user_remaining_bookings db uid now = 0 then .error .QuotaExceeded
    else if !admin &&
            (db.system_bookings.any fun b =>
              b.system_id == sysId && b.status == .active &&
              client_overlap s e b.booking_start b.booking_end &&
              b.user_id != uid) then .error .Conflict
    else insert_system_booking db now ⟨newId, sysId, uid, s, e, .active⟩ admin

/-- Denormalized lock columns of the systems (and subsystems) table:
is_locked, locked_by, locked_at, booking_start, booking_end. -/
structure LockState where
  is_locked : Bool
  locked_by : Option Nat
  locked_at : Option Nat
  booking_start : Option Nat
  booking_end : Option Nat
deriving DecidableEq, Repr

/-- The fully cleared lock columns (is_locked = false, everything NULL). -/
def unlockedLock : LockState := ⟨false, none, none, none, none⟩

/-- One iteration of the process_active_bookings loop (the version installed by
the later migration) for a single system, acting on its lock columns: a current
active booking locks the system for its user (locked_at =
GREATEST(booking_start, NOW())) unless it is already locked by that same user;
an ended active booking clears the lock when locked_by matches its user; a
future booking does nothing. -/
def tick_step (now : Nat) (L : LockState) (b : SystemBooking) : LockState :=
  if b.status == .active then
    if decide (b.booking_start ≤ now) && decide (now < b.booking_end) then
      if !L.is_locked || L.locked_by != some b.user_id then
        ⟨true, some b.user_id, some (max b.booking_start now), some b.booking_start, some b.booking_end⟩
      else L
    else if b.booking_end ≤ now then
      if L.locked_by == some b.user_id then unlockedLock else L
    else L
  else L

/-- Effect of one process_active_bookings pass on the lock columns of a single
system, folding the loop over the rows of system_bookings that belong to it (a
SELECT without ORDER BY: the list order models the unspecified row order). -/
def tick_lock (now : Nat) (l : List SystemBooking) (L : LockState) : LockState :=
  l.foldl (tick_step now) L

/-- Effect of one process_active_bookings pass for a single system on both the
booking rows and the lock columns. The loop body only updates the status of
the row it is visiting, so the status updates are a pointwise map (ended
active bookings become completed) and do not feed back into the lock
decisions of the remaining iterations. -/
def process_active_bookings (now : Nat) (l : List SystemBooking) (L : LockState) :
    List SystemBooking × LockState :=
  (l.map fun b =>
     if b.status == .active && b.booking_end ≤ now then { b with status := .completed } else b,
   tick_lock now l L)

/-- Lock columns produced by the locking branch of the tick for a current
active booking: locked by its user, locked_at GREATEST(start, now), interval
columns copied from the booking. -/
def lockedFor (now : Nat) (b : SystemBooking) : LockState :=
  ⟨true, some b.user_id, some (max b.booking_start now), some b.booking_start, some b.booking_end⟩

/-- Modelled from the spec: the earliest-starting current active reservation,
ties broken by reservation id (section 4.6 of the spec). -/
def spec_current_head (now : Nat) (l : List SystemBooking) : Option SystemBooking :=
  (l.filter fun b =>
      b.status == .active && decide (b.booking_start ≤ now) && decide (now < b.booking_end)).foldl
    (fun acc b =>
      match acc with
      | none => some b
      | some m =>
          if decide (b.booking_start < m.booking_start) ||
             (b.booking_start == m.booking_start && decide (b.id < m.id)) then some b
          else some m)
    none

/-- Modelled from the spec: the pure lock projection of section 4.6 — locked by
the first current active reservation with its interval, otherwise unlocked
even when future-dated active reservations exist. -/
def lockProjectionSpec (now : Nat) (l : List SystemBooking) : LockState :=
  match spec_current_head now l with
  | some b => ⟨true, some b.user_id, some b.booking_start, some b.booking_start, some b.booking_end⟩
  | none => unlockedLock

/-- State of one system as seen by the client hook: its booking rows and its
denormalized lock columns. -/
structure RState where
  bookings : List SystemBooking
  lock : LockState
deriving DecidableEq, Repr

/-- The client lockSystem function: toggle the lock columns of the resource
(is_locked, locked_by, locked_at only) with no change to the booking ledger. -/
def lockSystem (now uid : Nat) (st : RState) : RState :=
  if st.lock.is_locked then
    { st with lock := ⟨false, none, none, st.lock.booking_start, st.lock.booking_end⟩ }
  else
    { st with lock := ⟨true, some uid, some now, st.lock.booking_start, st.lock.booking_end⟩ }

/-- SQL function cancel_user_system_booking for a single system: find the
active booking owned by the caller (admins may cancel any active booking),
cancel it, and clear the booking columns of the system — also clearing the
lock when the cancelled booking was current — guarded by the WHERE clause of
the UPDATE on systems. Returns FALSE and leaves everything unchanged when no
eligible booking exists. -/
def cancel_user_system_booking (st : RState) (now bid uid : Nat) (admin : Bool) :
    Bool × RState :=
  let v1 := st.bookings.find? fun b => b.id == bid && b.user_id == uid && b.status == .active
  let vb : Option SystemBooking := match v1 with
    | some b => some b
    | none => if admin then st.bookings.find? (fun b => b.id == bid && b.status == .active) else none
  match vb with
  | none => (false, st)
  | some v =>
    let bookings2 := st.bookings.map fun b => if b.id == bid then { b with status := .cancelled } else b
    let cur := decide (v.booking_start ≤ now) && decide (now < v.booking_end)
    let lock2 :=
      if (st.lock.booking_start == some v.booking_start && st.lock.booking_end == some v.booking_end) ||
         (cur && st.lock.locked_by == some v.user_id) then
        { is_locked := if cur then false else st.lock.is_locked,
          locked_by := if cur then none else st.lock.locked_by,
          locked_at := if cur then none else st.lock.locked_at,
          booking_start := none,
          booking_end := none : LockState }
      else st.lock
    (true, ⟨bookings2, lock2⟩)

/-- Earliest-starting remaining current active booking other than the cancelled
one: the ORDER BY booking_start LIMIT 1 subqueries of cancel_system_booking. -/
def pick_current (l : List SystemBooking) (now bid : Nat) : Option SystemBooking :=
  (l.filter fun b =>
      b.status == .active && decide (b.booking_start ≤ now) && decide (now < b.booking_end) &&
      b.id != bid).foldl
    (fun acc b =>
      match acc with
      | none => some b
      | some m => if b.booking_start < m.booking_start then some b else some m)
    none

/-- SQL function cancel_system_booking (version of the
FIX_BOOKING_STATUS_AFTER_CANCEL migration) for a single system: admin-only —
any non-admin caller gets the exception, modelled as an error; otherwise cancel
the active booking with the given id (FALSE when none), unlock the system when
no other active booking remains, and when the cancelled booking was current
hand the lock to the earliest remaining current active booking if one exists. -/
def cancel_system_booking (st : RState) (now bid : Nat) (admin : Bool) :
    Except Unit (Bool × RState) :=
  if !admin then .error ()
  else
    match st.bookings.find? (fun b => b.id == bid && b.status == .active) with
    | none => .ok (false, st)
    | some v =>
      let bookings2 := st.bookings.map fun b => if b.id == bid then { b with status := .cancelled } else b
      let remaining := (st.bookings.filter fun b => b.status == .active && b.id != bid).length
      let lock2 :=
        if remaining == 0 then unlockedLock
        else if decide (v.booking_start ≤ now) && decide (now < v.booking_end) then
          match pick_current st.bookings now bid with
          | some nb => ⟨true, some nb.user_id, some now, some nb.booking_start, some nb.booking_end⟩
          | none => unlockedLock
        else st.lock
      .ok (true, ⟨bookings2, lock2⟩)

/-- Empty ledger. -/
def dbEmpty : DB := ⟨[], [], []⟩

/-- Ledger with one system (id 1) owning one subsystem (id 10) and no bookings. -/
def dbC1 : DB := ⟨[⟨10, 1⟩], [], []⟩

/-- A currently running active booking: user 4 holds system 1 over [0, 10). -/
def bCur : SystemBooking := ⟨1, 1, 4, 0, 10, .active⟩

/-- A future-dated active booking for system 1. -/
def bFut : SystemBooking := ⟨2, 1, 4, 10 * dayMs, 11 * dayMs, .active⟩

/-- Lock columns recording user 7 as the holder (a manual or stale lock). -/
def lockedBy7 : LockState := ⟨true, some 7, some 0, none, none⟩

/-- Ledger where requester 9 already holds an active booking on system 1. -/
def dbC3 : DB := ⟨[], [⟨1, 1, 9, 0, dayMs, .active⟩], []⟩

/-- A privileged booking by the same requester 9 overlapping that booking. -/
def nbC3 : SystemBooking := ⟨2, 1, 9, dayMs / 2, dayMs, .active⟩

/-- An active booking on system 1 owned by user 2. -/
def bC4 : SystemBooking := ⟨1, 1, 2, 0, 10, .active⟩

/-- Resource state holding only that booking, unlocked. -/
def stC4 : RState := ⟨[bC4], unlockedLock⟩

/-- Ledger where user 7 holds five future active bookings (system 2) and user
42 holds an active booking on system 1 covering day 0. -/
def dbC5 : DB :=
  ⟨[],
   [⟨1, 1, 42, 0, dayMs, .active⟩,
    ⟨11, 2, 7, 10 * dayMs, 11 * dayMs, .active⟩,
    ⟨12, 2, 7, 11 * dayMs, 12 * dayMs, .active⟩,
    ⟨13, 2, 7, 12 * dayMs, 13 * dayMs, .active⟩,
    ⟨14, 2, 7, 13 * dayMs, 14 * dayMs, .active⟩,
    ⟨15, 2, 7, 14 * dayMs, 15 * dayMs, .active⟩],
   []⟩

/-- The same ledger without the conflicting system 1 booking. -/
def dbC5w : DB :=
  ⟨[],
   [⟨11, 2, 7, 10 * dayMs, 11 * dayMs, .active⟩,
    ⟨12, 2, 7, 11 * dayMs, 12 * dayMs, .active⟩,
    ⟨13, 2, 7, 12 * dayMs, 13 * dayMs, .active⟩,
    ⟨14, 2, 7, 13 * dayMs, 14 * dayMs, .active⟩,
    ⟨15, 2, 7, 14 * dayMs, 15 * dayMs, .active⟩],
   []⟩

/-- System 1 with subsystem 10, the parent system actively booked by user 4. -/
def dbC6a : DB := ⟨[⟨10, 1⟩], [⟨1, 1, 4, 0, dayMs, .active⟩], []⟩

/-- A non-privileged subsystem booking request overlapping the parent booking. -/
def nbC6a : SubsystemBooking := ⟨3, 10, 1, 6, dayMs / 2, dayMs, .active⟩

/-- System 1 with subsystem 10, the subsystem actively booked by user 5. -/
def dbC6b : DB := ⟨[⟨10, 1⟩], [], [⟨2, 10, 1, 5, 0, dayMs, .active⟩]⟩

/-- A non-privileged system booking request overlapping the subsystem booking. -/
def nbC6b : SystemBooking := ⟨7, 1, 8, dayMs / 2, dayMs, .active⟩

/-- Ledger with an existing active booking of user 4 on system 1 over day 1. -/
def dbC7 : DB := ⟨[], [⟨1, 1, 4, dayMs, 2 * dayMs, .active⟩], []⟩

/-- Result of a successful one-day booking by user 3 on the empty ledger. -/
def dbC9r : DB := ⟨[], [⟨9, 1, 3, 0, dayMs - 1, .active⟩], []⟩

/-- Result of a successful three-calendar-day booking on the empty ledger. -/
def dbC10r : DB := ⟨[], [⟨9, 1, 3, 0, 3 * dayMs - 1, .active⟩], []⟩

/-- A subsystem booking request on subsystem 10 of system 1. -/
def nbU0 : SubsystemBooking := ⟨2, 10, 1, 4, 0, 10, .active⟩

/-- Ledger after committing bCur on the system of dbC1. -/
def dbC1S : DB := ⟨[⟨10, 1⟩], [bCur], []⟩

/-- Ledger after committing nbU0 on the subsystem of dbC1. -/
def dbC1U : DB := ⟨[⟨10, 1⟩], [], [nbU0]⟩

/-- A row that fails the SQL overlap test does not overlap the requested
half-open interval. This direction needs no non-emptiness side condition. -/
theorem sql_overlap_false_not_overlap {bs be s e : Nat}
    (h : sql_overlap bs be s e = false) : ¬(bs < e ∧ s < be) := by
  intro hov
  simp only [sql_overlap, Bool.or_eq_false_iff, Bool.and_eq_false_iff,
    decide_eq_false_iff_not, not_lt, not_le] at h
  omega

/-- C7. Corrected form. The SQL conflict test used at commit time agrees with
the half-open predicate s1 < e2 and s2 < e1 on non-empty intervals, but the
closed-bounds pre-check of the client bookSystem function treats the intervals
as conflicting exactly when s1 <= e2 and s2 <= e1, so intervals that only share
an endpoint conflict in that layer. Requested interval [s1, e1), existing
interval [s2, e2). -/
theorem overlap_predicate_amended (s1 e1 s2 e2 : Nat) :
    (s1 < e1 → s2 < e2 →
      (sql_overlap s2 e2 s1 e1 = true ↔ (s1 < e2 ∧ s2 < e1))) ∧
    (client_overlap s1 e1 s2 e2 = true ↔ (s1 ≤ e2 ∧ s2 ≤ e1)) := by
  constructor
  · intro h1 h2
    simp only [sql_overlap, Bool.or_eq_true, Bool.and_eq_true, decide_eq_true_eq]
    constructor
    · rintro ((⟨ha, hb⟩ | ⟨ha, hb⟩) | ⟨ha, hb⟩) <;> exact ⟨by omega, by omega⟩
    · rintro ⟨ha, hb⟩
      by_cases hc : s2 ≤ s1
      · exact Or.inl (Or.inl ⟨hc, ha⟩)
      · by_cases hd : e2 ≤ e1
        · exact Or.inr ⟨by omega, hd⟩
        · exact Or.inl (Or.inr ⟨by omega, by omega⟩)
  · simp only [client_overlap, Bool.and_eq_true, decide_eq_true_eq]

/-- Witness for the corrected C7 theorem at concrete intervals. -/
theorem overlap_predicate_amended_witness :
    sql_overlap 5 15 0 10 = true ∧ client_overlap 0 10 10 20 = true :=
  ⟨((overlap_predicate_amended 0 10 5 15).1 (by decide) (by decide)).mpr (by decide),
   (overlap_predicate_amended 0 10 10 20).2.mpr (by decide)⟩

/-- C7. Counterexample to the claim as stated: the requested interval
[2 days, 3 days - 1ms) is back to back with the existing active reservation
[1 day, 2 days) of another user, so under the claimed predicate there is no
conflict, yet the create flow rejects the request with Conflict through the
closed-bounds client pre-check. -/
theorem back_to_back_counterexample :
    ¬(2 * dayMs < 2 * dayMs ∧ dayMs < 3 * dayMs - 1) ∧
    sql_overlap dayMs (2 * dayMs) (2 * dayMs) (3 * dayMs - 1) = false ∧
    createReservation dbC7 0 9 1 false none 99 (2 * dayMs) (2 * dayMs) = .error .Conflict :=
  ⟨by decide, by decide, rfl⟩

/-- C8. Corrected form. The exposed lockSystem operation toggles the lock
columns of a resource while leaving its reservation ledger untouched, so the
stored lock state is mutated independently of any ledger change. -/
theorem lock_toggle_bypasses_ledger (now uid : Nat) (st : RState) :
    (lockSystem now uid st).bookings = st.bookings ∧
    (lockSystem now uid st).lock.is_locked = !st.lock.is_locked := by
  unfold lockSystem
  cases h : st.lock.is_locked <;> simp [h]

/-- C8. Counterexample to the claim as stated: with an empty ledger the pure
projection is unlocked, yet after the exposed lockSystem call the stored lock
state is locked, so the projection is not re-derivable from the ledger and the
current time. -/
theorem lock_toggle_counterexample :
    (lockSystem 0 3 ⟨[], unlockedLock⟩).lock.is_locked = true ∧
    (lockSystem 0 3 ⟨[], unlockedLock⟩).bookings = [] ∧
    (lockProjectionSpec 0 []).is_locked = false :=
  ⟨rfl, rfl, rfl⟩

/-- C4. Corrected form. The user cancellation path
cancel_user_system_booking succeeds exactly when the target reservation is
active and the caller is its owner or privileged, and on failure the state is
untouched; the admin cancellation path cancel_system_booking rejects every
non-privileged caller outright — ownership is never consulted — and for a
privileged caller succeeds exactly when the reservation is active. -/
theorem cancel_authorization_amended (st : RState) (now bid uid : Nat) (admin : Bool) :
    ((cancel_user_system_booking st now bid uid admin).1 = true ↔
      ∃ b ∈ st.bookings, b.id = bid ∧ b.status = .active ∧ (b.user_id = uid ∨ admin = true)) ∧
    ((cancel_user_system_booking st now bid uid admin).1 = false →
      (cancel_user_system_booking st now bid uid admin).2 = st) ∧
    (cancel_system_booking st now bid false = .error ()) ∧
    ((∃ r, cancel_system_booking st now bid true = .ok (true, r)) ↔
      ∃ b ∈ st.bookings, b.id = bid ∧ b.status = .active) := by
  refine ⟨?_, ?_, rfl, ?_⟩
  · cases h1 : st.bookings.find? (fun b => b.id == bid && b.user_id == uid && b.status == .active) with
    | some b =>
        have hm := List.mem_of_find?_eq_some h1
        have hp := List.find?_some h1
        simp only [Bool.and_eq_true, beq_iff_eq] at hp
        simp only [cancel_user_system_booking, h1]
        constructor
        · intro _
          exact ⟨b, hm, hp.1.1, hp.2, Or.inl hp.1.2⟩
        · intro _
          trivial
    | none =>
        have hnone := List.find?_eq_none.mp h1
        cases admin with
        | false =>
            simp only [cancel_user_system_booking, h1]
            constructor
            · intro hfalse
              exact absurd hfalse (by simp)
            · rintro ⟨b, hm, hid, hact, hor⟩
              rcases hor with huid | hadm
              · exact absurd (by simp [hid, huid, hact]) (hnone b hm)
              · exact Bool.noConfusion hadm
        | true =>
            cases h2 : st.bookings.find? (fun b => b.id == bid && b.status == .active) with
            | some b =>
                have hm := List.mem_of_find?_eq_some h2
                have hp := List.find?_some h2
                simp only [Bool.and_eq_true, beq_iff_eq] at hp
                simp only [cancel_user_system_booking, h1, h2]
                constructor
                · intro _
                  exact ⟨b, hm, hp.1, hp.2, Or.inr (by trivial)⟩
                · intro _
                  trivial
            | none =>
                have hnone2 := List.find?_eq_none.mp h2
                simp only [cancel_user_system_booking, h1, h2]
                constructor
                · intro hfalse
                  exact absurd hfalse (by simp)
                · rintro ⟨b, hm, hid, hact, _⟩
                  exact absurd (by simp [hid, hact]) (hnone2 b hm)
  · intro hf
    revert hf
    cases h1 : st.bookings.find? (fun b => b.id == bid && b.user_id == uid && b.status == .active) with
    | some b =>
        simp only [cancel_user_system_booking, h1]
        intro hf
        exact absurd hf (by simp)
    | none =>
        cases admin with
        | false =>
            simp only [cancel_user_system_booking, h1]
            intro _
            rfl
        | true =>
            cases h2 : st.bookings.find? (fun b => b.id == bid && b.status == .active) with
            | some b =>
                simp only [cancel_user_system_booking, h1, h2]
                intro hf
                exact absurd hf (by simp)
            | none =>
                simp only [cancel_user_system_booking, h1, h2]
                intro _
                rfl
  · cases h2 : st.bookings.find? (fun b => b.id == bid && b.status == .active) with
    | some b =>
        have hm := List.mem_of_find?_eq_some h2
        have hp := List.find?_some h2
        simp only [Bool.and_eq_true, beq_iff_eq] at hp
        simp only [cancel_system_booking, h2]
        constructor
        · intro _
          exact ⟨b, hm, hp.1, hp.2⟩
        · intro _
          exact ⟨_, rfl⟩
    | none =>
        have hnone2 := List.find?_eq_none.mp h2
        simp only [cancel_system_booking, h2]
        constructor
        · rintro ⟨r, hr⟩
          simp at hr
        · rintro ⟨b, hm, hid, hact⟩
          exact absurd (by simp [hid, hact]) (hnone2 b hm)

/-- Witness for the corrected C4 theorem: on a concrete state the owner
succeeds through the user path, an unknown id fails and leaves the state
unchanged, a non-privileged call of the admin path errors, and a privileged
call of the admin path succeeds. -/
theorem cancel_authorization_amended_witness :
    (cancel_user_system_booking stC4 5 1 2 false).1 = true ∧
    (cancel_user_system_booking stC4 5 99 2 false).2 = stC4 ∧
    cancel_system_booking stC4 5 1 false = .error () ∧
    (∃ r, cancel_system_booking stC4 5 1 true = .ok (true, r)) :=
  ⟨(cancel_authorization_amended stC4 5 1 2 false).1.mpr
     ⟨bC4, by simp [stC4], rfl, rfl, Or.inl rfl⟩,
   (cancel_authorization_amended stC4 5 99 2 false).2.1 (by decide),
   (cancel_authorization_amended stC4 5 1 2 false).2.2.1,
   (cancel_authorization_amended stC4 5 1 2 true).2.2.2.mpr
     ⟨bC4, by simp [stC4], rfl, rfl⟩⟩

/-- C4. Counterexample to the claim as stated: booking 1 is active and owned
by user 2, yet a cancel through the admin cancellation path by that
non-privileged owner fails with the authorization exception instead of
succeeding. -/
theorem owner_cancel_admin_path_counterexample :
    bC4.status = .active ∧ bC4.user_id = 2 ∧
    cancel_system_booking stC4 5 1 false = .error () :=
  ⟨rfl, rfl, rfl⟩

/-- The admin-override UPDATE cancels every active conflicting row of the
system, whatever its owner. -/
theorem mem_cancel_conflicting_system_cancelled {d : DB} {sysId s e newId : Nat}
    {b : SystemBooking} (hb : b ∈ d.system_bookings) (hsys : b.system_id = sysId)
    (hid : b.id ≠ newId) (hact : b.status = .active)
    (hov : sql_overlap b.booking_start b.booking_end s e = true) :
    { b with status := BookingStatus.cancelled } ∈
      (cancel_conflicting_system d sysId s e newId).system_bookings := by
  refine List.mem_map.mpr ⟨b, hb, ?_⟩
  simp [hsys, hid, hact, hov]

/-- A row that is already cancelled passes through the admin-override UPDATE
unchanged. -/
theorem mem_cancel_conflicting_system_of_cancelled {d : DB} {sysId s e newId : Nat}
    {x : SystemBooking} (hx : x ∈ d.system_bookings) (hst : x.status = .cancelled) :
    x ∈ (cancel_conflicting_system d sysId s e newId).system_bookings := by
  refine List.mem_map.mpr ⟨x, hx, ?_⟩
  simp [hst]

/-- C3. Corrected form. When a privileged create commits, every previously
active reservation of the same system with a different reservation id whose
interval passes the SQL overlap test is cancelled — with no restriction on its
requester, so the privileged requester cancels their own overlapping
reservations as well. -/
theorem admin_override_cancels_conflicts (db : DB) (now : Nat) (nb : SystemBooking) (dbr : DB)
    (h : insert_system_booking db now nb true = .ok dbr) :
    ∀ b ∈ db.system_bookings, b.status = .active → b.id ≠ nb.id → b.system_id = nb.system_id →
      sql_overlap b.booking_start b.booking_end nb.booking_start nb.booking_end = true →
      { b with status := BookingStatus.cancelled } ∈ dbr.system_bookings := by
  intro b hb hact hid hsys hov
  have hmem1 : ({ b with status := BookingStatus.cancelled } : SystemBooking) ∈
      (cancel_conflicting_system db nb.system_id nb.booking_start nb.booking_end nb.id).system_bookings :=
    mem_cancel_conflicting_system_cancelled hb hsys hid hact hov
  simp only [insert_system_booking, Bool.not_true, Bool.false_and, Bool.true_and,
    Bool.and_false, Bool.false_eq_true, if_false, eq_self_iff_true, if_true] at h
  split at h
  · exact Except.noConfusion h
  split at h
  · exact Except.noConfusion h
  split at h
  · exact Except.noConfusion h
  split at h <;> split at h <;> split at h <;>
    try exact Except.noConfusion h
  all_goals
    injection h with h
  all_goals
    rw [← h]
  all_goals
    refine List.mem_append_left _ ?_
  all_goals
    first
      | exact hmem1
      | exact mem_cancel_conflicting_system_of_cancelled hmem1 rfl

/-- Witness for the corrected C3 theorem at the concrete ledger: the
overlapping active booking of requester 9 is cancelled by the privileged
create of the same requester. -/
theorem admin_override_cancels_conflicts_witness :
    ({ id := 1, system_id := 1, user_id := 9, booking_start := 0, booking_end := dayMs,
       status := BookingStatus.cancelled } : SystemBooking) ∈
      (DB.mk [] [⟨1, 1, 9, 0, dayMs, .cancelled⟩, nbC3] []).system_bookings :=
  admin_override_cancels_conflicts dbC3 0 nbC3 ⟨[], [⟨1, 1, 9, 0, dayMs, .cancelled⟩, nbC3], []⟩
    rfl ⟨1, 1, 9, 0, dayMs, .active⟩ (by simp [dbC3]) rfl (by decide) rfl (by decide)

/-- C3. Counterexample to the claim as stated: requester 9 is privileged and
holds the active booking 1 on system 1; their own overriding create cancels
that booking instead of leaving it active to coexist. -/
theorem admin_override_cancels_own_counterexample :
    nbC3.user_id = 9 ∧
    insert_system_booking dbC3 0 nbC3 true =
      .ok ⟨[], [⟨1, 1, 9, 0, dayMs, .cancelled⟩, nbC3], []⟩ :=
  ⟨rfl, rfl⟩

/-- A false SQL conflict check rules out every half-open overlap among the
active rows of the system other than the excluded one. -/
theorem check_booking_conflicts_false_no_overlap {db : DB} {sysId s e xid : Nat}
    (h : check_booking_conflicts db sysId s e (some xid) = false) :
    ∀ b ∈ db.system_bookings, b.status = .active → b.id ≠ xid → b.system_id = sysId →
      ¬(b.booking_start < e ∧ s < b.booking_end) := by
  intro b hb hact hid hsys
  apply sql_overlap_false_not_overlap
  unfold check_booking_conflicts at h
  rw [List.any_eq_false] at h
  have hb2 := h b hb
  cases hsql : sql_overlap b.booking_start b.booking_end s e with
  | false => rfl
  | true =>
      exfalso
      apply hb2
      simp [hsys, hact, hid, hsql]

/-- The subsystem analogue of the previous lemma. -/
theorem check_subsystem_conflicts_false_no_overlap {db : DB} {subId s e xid : Nat}
    (h : check_subsystem_booking_conflicts db subId s e (some xid) = false) :
    ∀ sb ∈ db.subsystem_bookings, sb.status = .active → sb.id ≠ xid → sb.subsystem_id = subId →
      ¬(sb.booking_start < e ∧ s < sb.booking_end) := by
  intro sb hsb hact hid hsub
  apply sql_overlap_false_not_overlap
  unfold check_subsystem_booking_conflicts at h
  rw [List.any_eq_false] at h
  have hb2 := h sb hsb
  cases hsql : sql_overlap sb.booking_start sb.booking_end s e with
  | false => rfl
  | true =>
      exfalso
      apply hb2
      simp [hsub, hact, hid, hsql]

/-- When all subsystems are reported free, no active booking on a subsystem of
the system overlaps the requested interval. -/
theorem are_all_subsystems_free_no_overlap {db : DB} {sysId s e : Nat}
    (h : are_all_subsystems_free db sysId s e = true) :
    ∀ sb ∈ db.subsystem_bookings, sb.status = .active →
    ∀ ss ∈ db.subsystems, ss.id = sb.subsystem_id → ss.system_id = sysId →
      ¬(sb.booking_start < e ∧ s < sb.booking_end) := by
  intro sb hsb hact ss hss hid hsys
  apply sql_overlap_false_not_overlap
  unfold are_all_subsystems_free at h
  rw [Bool.not_eq_true'] at h
  rw [List.any_eq_false] at h
  have hb2 := h sb hsb
  cases hsql : sql_overlap sb.booking_start sb.booking_end s e with
  | false => rfl
  | true =>
      exfalso
      apply hb2
      have hanyss : (db.subsystems.any fun x => x.id == sb.subsystem_id && x.system_id == sysId) = true := by
        rw [List.any_eq_true]
        exact ⟨ss, hss, by simp [hid, hsys]⟩
      simp [hanyss, hact, hsql]

/-- When the parent system is reported not booked, none of its active bookings
overlaps the requested interval. -/
theorem is_parent_system_booked_false_no_overlap {db : DB} {subId s e : Nat}
    (h : is_parent_system_booked db subId s e = false) :
    ∀ ss, db.subsystems.find? (fun x => x.id == subId) = some ss →
    ∀ b ∈ db.system_bookings, b.status = .active → b.system_id = ss.system_id →
      ¬(b.booking_start < e ∧ s < b.booking_end) := by
  intro ss hss b hb hact hsys
  apply sql_overlap_false_not_overlap
  unfold is_parent_system_booked at h
  rw [hss] at h
  rw [List.any_eq_false] at h
  have hb2 := h b hb
  cases hsql : sql_overlap b.booking_start b.booking_end s e with
  | false => rfl
  | true =>
      exfalso
      apply hb2
      simp [hsys, hact, hsql]

/-- C1. When a non-privileged create commits through the ledger trigger
pipeline, no other active reservation on the same resource, on the parent
resource, or on any sub-resource of the resource overlaps the new interval in
the committed state. -/
theorem nonprivileged_commit_no_overlap (db : DB) (now : Nat) (nbS : SystemBooking)
    (nbU : SubsystemBooking) (dbS dbU : DB) :
    (insert_system_booking db now nbS false = .ok dbS →
      (∀ b ∈ dbS.system_bookings, b.status = .active → b.id ≠ nbS.id → b.system_id = nbS.system_id →
        ¬(b.booking_start < nbS.booking_end ∧ nbS.booking_start < b.booking_end)) ∧
      (∀ sb ∈ dbS.subsystem_bookings, sb.status = .active →
        ∀ ss ∈ db.subsystems, ss.id = sb.subsystem_id → ss.system_id = nbS.system_id →
          ¬(sb.booking_start < nbS.booking_end ∧ nbS.booking_start < sb.booking_end))) ∧
    (insert_subsystem_booking db now nbU false = .ok dbU →
      (∀ sb ∈ dbU.subsystem_bookings, sb.status = .active → sb.id ≠ nbU.id → sb.subsystem_id = nbU.subsystem_id →
        ¬(sb.booking_start < nbU.booking_end ∧ nbU.booking_start < sb.booking_end)) ∧
      (∀ ss, db.subsystems.find? (fun x => x.id == nbU.subsystem_id) = some ss →
        ∀ b ∈ dbU.system_bookings, b.status = .active → b.system_id = ss.system_id →
          ¬(b.booking_start < nbU.booking_end ∧ nbU.booking_start < b.booking_end))) := by
  constructor
  · intro h
    simp only [insert_system_booking, Bool.not_false, Bool.true_and, Bool.false_and,
      Bool.false_eq_true, if_false, Bool.and_true] at h
    split at h
    · exact Except.noConfusion h
    split at h
    · exact Except.noConfusion h
    rename_i hc1
    split at h
    · exact Except.noConfusion h
    rename_i hca
    split at h
    · exact Except.noConfusion h
    split at h
    · exact Except.noConfusion h
    split at h
    · exact Except.noConfusion h
    injection h with h
    have hc2 : check_booking_conflicts db nbS.system_id nbS.booking_start nbS.booking_end (some nbS.id) = false := by
      revert hc1
      cases check_booking_conflicts db nbS.system_id nbS.booking_start nbS.booking_end (some nbS.id) <;> simp
    have hfree : are_all_subsystems_free db nbS.system_id nbS.booking_start nbS.booking_end = true := by
      revert hca
      cases are_all_subsystems_free db nbS.system_id nbS.booking_start nbS.booking_end <;> simp
    constructor
    · have hlist : dbS.system_bookings = db.system_bookings ++ [nbS] := by
        rw [← h]
        split <;> rfl
      intro b hbmem hact hid hsys
      rw [hlist] at hbmem
      rcases List.mem_append.mp hbmem with hmem | hmem
      · exact check_booking_conflicts_false_no_overlap hc2 b hmem hact hid hsys
      · rw [List.mem_singleton] at hmem
        subst hmem
        exact absurd rfl hid
    · have hsubs : dbS.subsystem_bookings =
          db.subsystem_bookings.map (fun x =>
            if (db.subsystems.any fun s2 => s2.id == x.subsystem_id && s2.system_id == nbS.system_id) &&
               x.status == .active && x.user_id != nbS.user_id &&
               sql_overlap x.booking_start x.booking_end nbS.booking_start nbS.booking_end
            then { x with status := BookingStatus.cancelled } else x) ∨
          dbS.subsystem_bookings = db.subsystem_bookings := by
        rw [← h]
        split
        · exact Or.inl rfl
        · exact Or.inr rfl
      intro sb hsbmem hact ss hssmem hssid hsssys
      rcases hsubs with hcaseq | hcaseq
      · rw [hcaseq] at hsbmem
        obtain ⟨x, hx, hgx⟩ := List.mem_map.mp hsbmem
        split at hgx
        · rw [← hgx] at hact
          simp at hact
        · subst hgx
          exact are_all_subsystems_free_no_overlap hfree x hx hact ss hssmem hssid hsssys
      · rw [hcaseq] at hsbmem
        exact are_all_subsystems_free_no_overlap hfree sb hsbmem hact ss hssmem hssid hsssys
  · intro h
    simp only [insert_subsystem_booking, Bool.not_false, Bool.true_and, Bool.false_and,
      Bool.false_eq_true, if_false] at h
    split at h
    · exact Except.noConfusion h
    split at h
    · exact Except.noConfusion h
    rename_i hc1
    split at h
    · exact Except.noConfusion h
    rename_i hpar
    split at h
    · exact Except.noConfusion h
    split at h
    · exact Except.noConfusion h
    split at h
    · exact Except.noConfusion h
    injection h with h
    have hc2 : check_subsystem_booking_conflicts db nbU.subsystem_id nbU.booking_start nbU.booking_end (some nbU.id) = false := by
      revert hc1
      cases check_subsystem_booking_conflicts db nbU.subsystem_id nbU.booking_start nbU.booking_end (some nbU.id) <;> simp
    have hpar2 : is_parent_system_booked db nbU.subsystem_id nbU.booking_start nbU.booking_end = false := by
      revert hpar
      cases is_parent_system_booked db nbU.subsystem_id nbU.booking_start nbU.booking_end <;> simp
    constructor
    · have hlist : dbU.subsystem_bookings = db.subsystem_bookings ++ [nbU] := by
        rw [← h]
      intro sb hsbmem hact hid hsub
      rw [hlist] at hsbmem
      rcases List.mem_append.mp hsbmem with hmem | hmem
      · exact check_subsystem_conflicts_false_no_overlap hc2 sb hmem hact hid hsub
      · rw [List.mem_singleton] at hmem
        subst hmem
        exact absurd rfl hid
    · have hlist2 : dbU.system_bookings = db.system_bookings := by
        rw [← h]
      intro ss hss b hbmem hact hsys
      rw [hlist2] at hbmem
      exact is_parent_system_booked_false_no_overlap hpar2 ss hss b hbmem hact hsys

/-- Witness for C1: concrete successful commits on the two-level ledger, for a
system booking and for a subsystem booking. -/
theorem nonprivileged_commit_no_overlap_witness :
    ((∀ b ∈ dbC1S.system_bookings, b.status = .active → b.id ≠ bCur.id → b.system_id = bCur.system_id →
        ¬(b.booking_start < bCur.booking_end ∧ bCur.booking_start < b.booking_end)) ∧
     (∀ sb ∈ dbC1S.subsystem_bookings, sb.status = .active →
        ∀ ss ∈ dbC1.subsystems, ss.id = sb.subsystem_id → ss.system_id = bCur.system_id →
          ¬(sb.booking_start < bCur.booking_end ∧ bCur.booking_start < sb.booking_end))) ∧
    ((∀ sb ∈ dbC1U.subsystem_bookings, sb.status = .active → sb.id ≠ nbU0.id → sb.subsystem_id = nbU0.subsystem_id →
        ¬(sb.booking_start < nbU0.booking_end ∧ nbU0.booking_start < sb.booking_end)) ∧
     (∀ ss, dbC1.subsystems.find? (fun x => x.id == nbU0.subsystem_id) = some ss →
        ∀ b ∈ dbC1U.system_bookings, b.status = .active → b.system_id = ss.system_id →
          ¬(b.booking_start < nbU0.booking_end ∧ nbU0.booking_start < b.booking_end))) :=
  ⟨(nonprivileged_commit_no_overlap dbC1 0 bCur nbU0 dbC1S dbC1U).1 rfl,
   (nonprivileged_commit_no_overlap dbC1 0 bCur nbU0 dbC1S dbC1U).2 rfl⟩

/-- C6. A non-privileged create on a sub-resource can never commit while the
parent system has an overlapping active reservation, and a non-privileged
create on a top-level resource can never commit while any of its sub-resources
has one; when the hierarchy violation is the only obstacle (quota not reached,
no same-resource conflict) the rejection is precisely ParentConflict,
respectively ChildConflict. -/
theorem hierarchy_blocking (db : DB) (now : Nat) (nbU : SubsystemBooking) (nbS : SystemBooking) :
    (is_parent_system_booked db nbU.subsystem_id nbU.booking_start nbU.booking_end = true →
      ∀ d, insert_subsystem_booking db now nbU false ≠ .ok d) ∧
    (are_all_subsystems_free db nbS.system_id nbS.booking_start nbS.booking_end = false →
      ∀ d, insert_system_booking db now nbS false ≠ .ok d) ∧
    (count_active_future db nbU.user_id now < 5 →
      check_subsystem_booking_conflicts db nbU.subsystem_id nbU.booking_start nbU.booking_end (some nbU.id) = false →
      is_parent_system_booked db nbU.subsystem_id nbU.booking_start nbU.booking_end = true →
      insert_subsystem_booking db now nbU false = .error .ParentConflict) ∧
    (count_active_future db nbS.user_id now < 5 →
      check_booking_conflicts db nbS.system_id nbS.booking_start nbS.booking_end (some nbS.id) = false →
      are_all_subsystems_free db nbS.system_id nbS.booking_start nbS.booking_end = false →
      insert_system_booking db now nbS false = .error .ChildConflict) := by
  refine ⟨?_, ?_, ?_, ?_⟩
  · intro hp d hok
    simp only [insert_subsystem_booking, Bool.not_false, Bool.true_and, Bool.false_and,
      Bool.false_eq_true, if_false] at hok
    rw [if_pos hp] at hok
    split at hok
    · exact Except.noConfusion hok
    split at hok
    · exact Except.noConfusion hok
    exact Except.noConfusion hok
  · intro hf d hok
    simp only [insert_system_booking, Bool.not_false, Bool.true_and, Bool.false_and,
      Bool.false_eq_true, if_false, Bool.and_true] at hok
    rw [if_pos (show (!are_all_subsystems_free db nbS.system_id nbS.booking_start nbS.booking_end) = true by simp [hf])] at hok
    split at hok
    · exact Except.noConfusion hok
    split at hok
    · exact Except.noConfusion hok
    exact Except.noConfusion hok
  · intro hq hc hp
    simp only [insert_subsystem_booking, Bool.not_false, Bool.true_and, Bool.false_and,
      Bool.false_eq_true, if_false]
    rw [if_neg (by omega), if_neg (by simp [hc]), if_pos hp]
  · intro hq hc hf
    simp only [insert_system_booking, Bool.not_false, Bool.true_and, Bool.false_and,
      Bool.false_eq_true, if_false, Bool.and_true]
    rw [if_neg (by omega), if_neg (by simp [hc]), if_pos (by simp [hf])]

/-- Witness for C6 on concrete two-level ledgers: the parent-booked subsystem
request is rejected with ParentConflict and the subsystem-booked system request
is rejected with ChildConflict; neither request can commit. -/
theorem hierarchy_blocking_witness :
    (∀ d, insert_subsystem_booking dbC6a 0 nbC6a false ≠ .ok d) ∧
    (∀ d, insert_system_booking dbC6b 0 nbC6b false ≠ .ok d) ∧
    insert_subsystem_booking dbC6a 0 nbC6a false = .error .ParentConflict ∧
    insert_system_booking dbC6b 0 nbC6b false = .error .ChildConflict :=
  ⟨(hierarchy_blocking dbC6a 0 nbC6a nbC6b).1 (by decide),
   (hierarchy_blocking dbC6b 0 nbC6a nbC6b).2.1 (by decide),
   (hierarchy_blocking dbC6a 0 nbC6a nbC6b).2.2.1 (by decide) (by decide) (by decide),
   (hierarchy_blocking dbC6b 0 nbC6a nbC6b).2.2.2 (by decide) (by decide) (by decide)⟩

/-- The admin-override UPDATE changes only statuses, never intervals. -/
theorem cancel_conflicting_system_intervals {d : DB} {sysId s e newId : Nat} {x : SystemBooking}
    (hx : x ∈ (cancel_conflicting_system d sysId s e newId).system_bookings) :
    ∃ y ∈ d.system_bookings, x.booking_start = y.booking_start ∧ x.booking_end = y.booking_end := by
  obtain ⟨y, hy, hxy⟩ := List.mem_map.mp hx
  refine ⟨y, hy, ?_⟩
  split at hxy <;> rw [← hxy] <;> exact ⟨rfl, rfl⟩

/-- Inversion of a successful ledger insert: the new row is appended last, it
passed the interval CHECK constraints, and every other row keeps the interval
of a row of the original ledger. -/
theorem insert_system_booking_ok_shape {db : DB} {now : Nat} {nb : SystemBooking}
    {admin : Bool} {dbr : DB} (h : insert_system_booking db now nb admin = .ok dbr) :
    dbr.system_bookings.getLast? = some nb ∧
    nb.booking_start < nb.booking_end ∧ nb.booking_end - nb.booking_start ≤ 3 * dayMs ∧
    ∀ b ∈ dbr.system_bookings, b = nb ∨ ∃ y ∈ db.system_bookings,
      b.booking_start = y.booking_start ∧ b.booking_end = y.booking_end := by
  cases admin with
  | false =>
    simp only [insert_system_booking, Bool.not_false, Bool.true_and, Bool.false_and,
      Bool.false_eq_true, if_false, Bool.and_true] at h
    split at h
    · exact Except.noConfusion h
    split at h
    · exact Except.noConfusion h
    split at h
    · exact Except.noConfusion h
    split at h
    · exact Except.noConfusion h
    rename_i ht1
    split at h
    · exact Except.noConfusion h
    rename_i ht2
    split at h
    · exact Except.noConfusion h
    injection h with h
    have hlist : dbr.system_bookings = db.system_bookings ++ [nb] := by
      rw [← h]
      split <;> rfl
    refine ⟨?_, by omega, by omega, ?_⟩
    · rw [hlist]
      exact List.getLast?_concat _
    · rw [hlist]
      intro b hb
      rcases List.mem_append.mp hb with hm | hm
      · exact Or.inr ⟨b, hm, rfl, rfl⟩
      · exact Or.inl (List.mem_singleton.mp hm)
  | true =>
    simp only [insert_system_booking, Bool.not_true, Bool.false_and, Bool.true_and,
      Bool.and_false, Bool.false_eq_true, if_false, eq_self_iff_true, if_true] at h
    split at h
    · exact Except.noConfusion h
    split at h
    · exact Except.noConfusion h
    rename_i ht1
    split at h
    · exact Except.noConfusion h
    rename_i ht2
    split at h <;> split at h <;> split at h <;>
      try exact Except.noConfusion h
    all_goals
      injection h with h
    all_goals
      refine ⟨?_, by omega, by omega, ?_⟩
    all_goals
      try (rw [← h]; exact List.getLast?_concat _)
    all_goals
      rw [← h]
    all_goals
      intro b hb
    all_goals
      rcases List.mem_append.mp hb with hm | hm
    all_goals
      try exact Or.inl (List.mem_singleton.mp hm)
    all_goals
      refine Or.inr ?_
    all_goals
      first
        | exact cancel_conflicting_system_intervals hm
        | (obtain ⟨y, hy, hy1, hy2⟩ := cancel_conflicting_system_intervals hm
           obtain ⟨z, hz, hz1, hz2⟩ := cancel_conflicting_system_intervals hy
           exact ⟨z, hz, by omega, by omega⟩)

/-- Inversion of a successful client create: the dialog validation passed and
the quantized booking row went through the ledger insert. -/
theorem createReservation_ok_inv {db : DB} {now uid sysId newId d1 d2 : Nat} {admin : Bool}
    {cur : Option (Nat × Nat)} {dbr : DB}
    (h : createReservation db now uid sysId admin cur newId d1 d2 = .ok dbr) :
    validateBooking db now sysId admin cur (startOfDay d1) (endOfDay d2) = none ∧
    insert_system_booking db now ⟨newId, sysId, uid, startOfDay d1, endOfDay d2, .active⟩ admin = .ok dbr := by
  simp only [createReservation] at h
  cases hv : validateBooking db now sysId admin cur (startOfDay d1) (endOfDay d2) with
  | some err =>
      simp only [hv] at h
      exact Except.noConfusion h
  | none =>
      simp only [hv] at h
      split at h
      · exact Except.noConfusion h
      split at h
      · exact Except.noConfusion h
      exact ⟨rfl, h⟩

/-- A request that passes the dialog validation has its end date not before
its start date and spans at most two whole calendar days. -/
theorem validateBooking_none_bounds {db : DB} {now sysId : Nat} {admin : Bool}
    {cur : Option (Nat × Nat)} {s e : Nat}
    (hv : validateBooking db now sysId admin cur s e = none) :
    ¬(e < s) ∧ ¬(2 < e / dayMs - s / dayMs) := by
  unfold validateBooking at hv
  split at hv
  · exact Option.noConfusion hv
  split at hv
  · exact Option.noConfusion hv
  rename_i h2
  split at hv
  · exact Option.noConfusion hv
  rename_i h3
  exact ⟨h2, h3⟩

/-- C5. Corrected form. A requester already holding five active reservations
with end after now, counted over both resource levels, has a create request
fail with QuotaExceeded whenever it passes the conflict pre-checks of the
dialog; the quota binds privileged requesters identically and is never
overridable, and for privileged requesters (whose conflicts never reject) the
at-quota failure is always QuotaExceeded. The quota check runs after interval
validation but after the dialog conflict pre-check, not before all conflict
checks. -/
theorem quota_absolute_amended (db : DB) (now uid sysId newId d1 d2 : Nat) (admin : Bool)
    (cur : Option (Nat × Nat))
    (hq : 5 ≤ count_active_future db uid now)
    (hpast : startOfDay now ≤ startOfDay d1)
    (hord : startOfDay d1 ≤ endOfDay d2)
    (hdur : endOfDay d2 / dayMs - startOfDay d1 / dayMs ≤ 2)
    (hconf : admin = true ∨ (cur = none ∧
      ∀ b ∈ db.system_bookings, b.system_id = sysId → b.status = .active →
        modal_conflict (startOfDay d1) (endOfDay d2) b.booking_start b.booking_end = false)) :
    createReservation db now uid sysId admin cur newId d1 d2 = .error .QuotaExceeded := by
  have hv : validateBooking db now sysId admin cur (startOfDay d1) (endOfDay d2) = none := by
    unfold validateBooking
    rw [if_neg (by omega), if_neg (by omega), if_neg (by omega)]
    rcases hconf with hadm | ⟨hcur, hmc⟩
    · subst hadm
      simp
    · subst hcur
      have hany : (db.system_bookings.any fun b =>
          b.system_id == sysId && b.status == .active &&
          modal_conflict (startOfDay d1) (endOfDay d2) b.booking_start b.booking_end) = false := by
        rw [List.any_eq_false]
        intro b hb hcontra
        rw [Bool.and_eq_true, Bool.and_eq_true] at hcontra
        obtain ⟨⟨hsys, hact⟩, hmcb⟩ := hcontra
        rw [beq_iff_eq] at hsys hact
        rw [hmc b hb hsys hact] at hmcb
        exact Bool.noConfusion hmcb
      rw [if_neg (by simp), if_neg (by simp [hany])]
  simp only [createReservation, hv]
  rw [if_pos (show get_user_remaining_bookings db uid now = 0 from by
    unfold get_user_remaining_bookings
    omega)]

/-- Witness for the corrected C5 theorem: the at-quota requester 7 is rejected
with QuotaExceeded on a valid non-conflicting request, both unprivileged and
privileged. -/
theorem quota_absolute_amended_witness :
    createReservation dbC5w 0 7 1 false none 99 0 0 = .error .QuotaExceeded ∧
    createReservation dbC5w 0 7 1 true none 98 0 0 = .error .QuotaExceeded :=
  ⟨quota_absolute_amended dbC5w 0 7 1 99 0 0 false none (by decide) (by decide) (by decide)
     (by decide) (Or.inr ⟨rfl, by decide⟩),
   quota_absolute_amended dbC5w 0 7 1 98 0 0 true none (by decide) (by decide) (by decide)
     (by decide) (Or.inl rfl)⟩

/-- C5. Counterexample to the claim as stated: requester 7 already holds five
active future reservations, yet a request overlapping the reservation of user
42 fails with Conflict from the dialog pre-check instead of QuotaExceeded, so
the quota is not checked before all conflict checks. -/
theorem quota_conflict_order_counterexample :
    5 ≤ count_active_future dbC5 7 0 ∧
    createReservation dbC5 0 7 1 false none 99 0 0 = .error .Conflict :=
  ⟨by decide, rfl⟩

/-- C9. The create flow validates the quantized interval before any quota or
conflict check and rejects with InvalidInterval whenever the quantized end is
not after the quantized start or the duration exceeds the three-day ledger
maximum; committed ledgers preserve the interval bounds of every row. -/
theorem create_interval_validation (db : DB) (now uid sysId newId d1 d2 : Nat) (admin : Bool)
    (cur : Option (Nat × Nat)) (dbr : DB) :
    (endOfDay d2 < startOfDay d1 →
      createReservation db now uid sysId admin cur newId d1 d2 = .error .InvalidInterval) ∧
    (3 * dayMs < endOfDay d2 - startOfDay d1 →
      createReservation db now uid sysId admin cur newId d1 d2 = .error .InvalidInterval) ∧
    ((∀ b ∈ db.system_bookings, b.booking_start < b.booking_end ∧
        b.booking_end - b.booking_start ≤ 3 * dayMs) →
      createReservation db now uid sysId admin cur newId d1 d2 = .ok dbr →
      ∀ b ∈ dbr.system_bookings, b.booking_start < b.booking_end ∧
        b.booking_end - b.booking_start ≤ 3 * dayMs) := by
  refine ⟨?_, ?_, ?_⟩
  · intro hlt
    have hv : validateBooking db now sysId admin cur (startOfDay d1) (endOfDay d2) =
        some .InvalidInterval := by
      unfold validateBooking
      by_cases h1 : startOfDay d1 < startOfDay now
      · rw [if_pos h1]
      · rw [if_neg h1, if_pos hlt]
    simp only [createReservation, hv]
  · intro hdur
    have hv : validateBooking db now sysId admin cur (startOfDay d1) (endOfDay d2) =
        some .InvalidInterval := by
      unfold validateBooking
      by_cases h1 : startOfDay d1 < startOfDay now
      · rw [if_pos h1]
      · rw [if_neg h1]
        by_cases h2 : endOfDay d2 < startOfDay d1
        · rw [if_pos h2]
        · rw [if_neg h2, if_pos (show 2 < endOfDay d2 / dayMs - startOfDay d1 / dayMs from by
            simp only [startOfDay, endOfDay, dayMs] at *
            omega)]
    simp only [createReservation, hv]
  · intro hpre h
    obtain ⟨hv, hins⟩ := createReservation_ok_inv h
    have hs := insert_system_booking_ok_shape hins
    intro b hb
    rcases hs.2.2.2 b hb with rfl | ⟨y, hy, h1, h2⟩
    · exact ⟨hs.2.1, hs.2.2.1⟩
    · obtain ⟨hy1, hy2⟩ := hpre y hy
      constructor <;> omega

/-- Witness for C9: a reversed interval and an over-long interval are rejected
with InvalidInterval; a committed one-day booking satisfies the bounds. -/
theorem create_interval_validation_witness :
    createReservation dbEmpty 0 3 1 false none 9 dayMs 0 = .error .InvalidInterval ∧
    createReservation dbEmpty 0 3 1 false none 9 0 (4 * dayMs) = .error .InvalidInterval ∧
    (∀ b ∈ dbC9r.system_bookings, b.booking_start < b.booking_end ∧
      b.booking_end - b.booking_start ≤ 3 * dayMs) :=
  ⟨(create_interval_validation dbEmpty 0 3 1 9 dayMs 0 false none dbEmpty).1 (by decide),
   (create_interval_validation dbEmpty 0 3 1 9 0 (4 * dayMs) false none dbEmpty).2.1 (by decide),
   (create_interval_validation dbEmpty 0 3 1 9 0 0 false none dbC9r).2.2 (by decide) rfl⟩

/-- C10. Every reservation committed through the booking dialog stores the
start of day of the chosen start date and the last millisecond of the chosen
end date, and its stored duration is at most three calendar days minus one
millisecond. -/
theorem quantized_commit (db : DB) (now uid sysId newId d1 d2 : Nat) (admin : Bool)
    (cur : Option (Nat × Nat)) (dbr : DB)
    (h : createReservation db now uid sysId admin cur newId d1 d2 = .ok dbr) :
    dbr.system_bookings.getLast? =
      some ⟨newId, sysId, uid, startOfDay d1, endOfDay d2, .active⟩ ∧
    endOfDay d2 - startOfDay d1 ≤ 3 * dayMs - 1 := by
  obtain ⟨hv, hins⟩ := createReservation_ok_inv h
  have hs := insert_system_booking_ok_shape hins
  refine ⟨hs.1, ?_⟩
  obtain ⟨hb1, hb2⟩ := validateBooking_none_bounds hv
  simp only [startOfDay, endOfDay, dayMs] at *
  omega

/-- Witness for C10: the committed three-calendar-day booking reaches the
maximum stored duration of three days minus one millisecond. -/
theorem quantized_commit_witness :
    dbC10r.system_bookings.getLast? =
      some ⟨9, 1, 3, startOfDay 0, endOfDay (2 * dayMs), .active⟩ ∧
    endOfDay (2 * dayMs) - startOfDay 0 ≤ 3 * dayMs - 1 ∧
    endOfDay (2 * dayMs) - startOfDay 0 = 3 * dayMs - 1 :=
  ⟨(quantized_commit dbEmpty 0 3 1 9 0 (2 * dayMs) false none dbC10r (by rfl)).1,
   (quantized_commit dbEmpty 0 3 1 9 0 (2 * dayMs) false none dbC10r (by rfl)).2,
   by decide⟩

/-- A lock state already reflecting the unique current active booking is a
fixed point of the tick fold over bookings that are not ended. -/
theorem tick_lock_preserve (now : Nat) (b0 : SystemBooking) :
    ∀ l : List SystemBooking,
      (∀ b ∈ l, b.status = .active → now < b.booking_end) →
      (∀ b ∈ l, b.status = .active → b.booking_start ≤ now → b = b0) →
      tick_lock now l (lockedFor now b0) = lockedFor now b0 := by
  intro l
  induction l with
  | nil => intro _ _; rfl
  | cons b t ih =>
      intro hend huniq
      have hstep : tick_step now (lockedFor now b0) b = lockedFor now b0 := by
        unfold tick_step
        by_cases ha : (b.status == .active) = true
        · rw [if_pos ha]
          rw [beq_iff_eq] at ha
          by_cases hcur : b.booking_start ≤ now
          · have hb0 : b = b0 := huniq b (List.mem_cons_self b t) ha hcur
            subst hb0
            rw [if_pos (by
              simp only [Bool.and_eq_true, decide_eq_true_eq]
              exact ⟨hcur, hend b (List.mem_cons_self b t) ha⟩)]
            rw [if_neg (by simp [lockedFor])]
          · rw [if_neg (by
              simp only [Bool.and_eq_true, decide_eq_true_eq]
              omega)]
            rw [if_neg (by
              have := hend b (List.mem_cons_self b t) ha
              omega)]
        · rw [if_neg ha]
      unfold tick_lock
      simp only [List.foldl_cons]
      rw [hstep]
      exact ih (fun x hx => hend x (List.mem_cons_of_mem _ hx))
        (fun x hx hxa hxs => huniq x (List.mem_cons_of_mem _ hx) hxa hxs)

/-- When the unique current active booking b0 is in the list, no active
booking has ended, and the resource starts unlocked, the tick locks the
resource for b0. -/
theorem tick_lock_locks (now : Nat) (b0 : SystemBooking) :
    ∀ (l : List SystemBooking) (L : LockState),
      b0 ∈ l → b0.status = .active → b0.booking_start ≤ now → now < b0.booking_end →
      (∀ b ∈ l, b.status = .active → now < b.booking_end) →
      (∀ b ∈ l, b.status = .active → b.booking_start ≤ now → b = b0) →
      L.is_locked = false →
      tick_lock now l L = lockedFor now b0 := by
  intro l
  induction l with
  | nil =>
      intro L hmem
      exact absurd hmem (List.not_mem_nil b0)
  | cons b t ih =>
      intro L hmem hact hcs hce hend huniq hL
      by_cases hbcur : b.status = .active ∧ b.booking_start ≤ now
      · obtain ⟨hba, hbs⟩ := hbcur
        have hb0 : b = b0 := huniq b (List.mem_cons_self b t) hba hbs
        subst hb0
        have hstep : tick_step now L b = lockedFor now b := by
          unfold tick_step lockedFor
          rw [if_pos (by simp [hba])]
          rw [if_pos (by
            simp only [Bool.and_eq_true, decide_eq_true_eq]
            exact ⟨hbs, hend b (List.mem_cons_self b t) hba⟩)]
          rw [if_pos (by simp [hL])]
        unfold tick_lock
        simp only [List.foldl_cons]
        rw [hstep]
        exact tick_lock_preserve now b t
          (fun x hx => hend x (List.mem_cons_of_mem _ hx))
          (fun x hx hxa hxs => huniq x (List.mem_cons_of_mem _ hx) hxa hxs)
      · have hstep : tick_step now L b = L := by
          unfold tick_step
          by_cases hba : (b.status == .active) = true
          · rw [if_pos hba]
            rw [beq_iff_eq] at hba
            have hnst : ¬ b.booking_start ≤ now := fun hc => hbcur ⟨hba, hc⟩
            rw [if_neg (by
              simp only [Bool.and_eq_true, decide_eq_true_eq]
              omega)]
            rw [if_neg (by
              have := hend b (List.mem_cons_self b t) hba
              omega)]
          · rw [if_neg hba]
        have hmem2 : b0 ∈ t := by
          rcases List.mem_cons.mp hmem with h1 | h1
          · exact absurd ⟨h1 ▸ hact, h1 ▸ hcs⟩ hbcur
          · exact h1
        unfold tick_lock
        simp only [List.foldl_cons]
        rw [hstep]
        exact ih L hmem2 hact hcs hce
          (fun x hx => hend x (List.mem_cons_of_mem _ hx))
          (fun x hx hxa hxs => huniq x (List.mem_cons_of_mem _ hx) hxa hxs) hL

/-- When no active booking is current, the tick never creates a lock: a locked
result means the resource was locked before the tick. -/
theorem tick_lock_no_current_no_lock (now : Nat) :
    ∀ (l : List SystemBooking) (L : LockState),
      (∀ b ∈ l, b.status = .active → ¬(b.booking_start ≤ now ∧ now < b.booking_end)) →
      (tick_lock now l L).is_locked = true → L.is_locked = true := by
  intro l
  induction l with
  | nil => intro L _ h; exact h
  | cons b t ih =>
      intro L hnc h
      unfold tick_lock at h
      simp only [List.foldl_cons] at h
      have h2 := ih (tick_step now L b) (fun x hx => hnc x (List.mem_cons_of_mem _ hx)) h
      revert h2
      unfold tick_step
      by_cases hba : (b.status == .active) = true
      · rw [if_pos hba]
        rw [beq_iff_eq] at hba
        rw [if_neg (by
          simp only [Bool.and_eq_true, decide_eq_true_eq]
          exact hnc b (List.mem_cons_self b t) hba)]
        by_cases hed : b.booking_end ≤ now
        · rw [if_pos hed]
          by_cases hlb : (L.locked_by == some b.user_id) = true
          · rw [if_pos hlb]
            intro h2
            exact absurd h2 (by simp [unlockedLock])
          · rw [if_neg hlb]
            exact id
        · rw [if_neg hed]
          exact id
      · rw [if_neg hba]
        exact id

/-- C2. Corrected form. Given that every active reservation of the resource
still runs (none has already ended) and the stored state is unlocked, the tick
locks the resource for the unique current active reservation with its interval
and requester (uniqueness holds in reachable states by the exclusion
constraint); and when no active reservation is current the tick never locks,
but it also does not reset an already locked stored state, so no current
reservation does not imply the stored state is unlocked. -/
theorem tick_lock_amended (now : Nat) (l : List SystemBooking) (L : LockState) :
    (∀ b0, b0 ∈ l → b0.status = .active → b0.booking_start ≤ now → now < b0.booking_end →
      (∀ b ∈ l, b.status = .active → now < b.booking_end) →
      (∀ b ∈ l, b.status = .active → b.booking_start ≤ now → b = b0) →
      L.is_locked = false →
      tick_lock now l L = lockedFor now b0) ∧
    ((∀ b ∈ l, b.status = .active → ¬(b.booking_start ≤ now ∧ now < b.booking_end)) →
      (tick_lock now l L).is_locked = true → L.is_locked = true) :=
  ⟨fun b0 hmem hact hcs hce hend huniq hL =>
     tick_lock_locks now b0 l L hmem hact hcs hce hend huniq hL,
   fun hnc => tick_lock_no_current_no_lock now l L hnc⟩

/-- Witness for the corrected C2 theorem: the tick locks the unlocked resource
for the current booking bCur, and the tick with only a future booking never
creates a lock. -/
theorem tick_lock_amended_witness :
    tick_lock 5 [bCur] unlockedLock = lockedFor 5 bCur ∧
    ((tick_lock 5 [bFut] lockedBy7).is_locked = true → lockedBy7.is_locked = true) :=
  ⟨(tick_lock_amended 5 [bCur] unlockedLock).1 bCur (by decide) rfl (by decide) (by decide)
     (by decide) (by decide) rfl,
   (tick_lock_amended 5 [bFut] lockedBy7).2 (by decide)⟩

/-- C2. Counterexample to the claim as stated: the resource carries a stale
lock by user 7 and its only active reservation is future-dated, so the claimed
projection is unlocked, yet the tick leaves the stored lock state locked. -/
theorem tick_stale_lock_counterexample :
    bFut.status = .active ∧ 5 < bFut.booking_start ∧
    tick_lock 5 [bFut] lockedBy7 = lockedBy7 ∧
    (tick_lock 5 [bFut] lockedBy7).is_locked = true ∧
    (lockProjectionSpec 5 [bFut]).is_locked = false :=
  ⟨rfl, by decide, by decide, by decide, by decide⟩

end Guardian
